import Mathlib

/-!
Shallow embedding of `src/types/src/examples/job_and_result_submission.ts`
(the Tangle job/job-result demo script).

The script is a single linear async procedure that
1. connects to a node,
2. derives the identities `ALICE`/`BOB` and two ECDSA "role" key pairs
   from fixed hex seeds,
3. submits two profile-creation transactions, one job-submission
   transaction and one job-result transaction, awaiting block inclusion
   of each before the next, and
4. exits the process with status 0.

External libraries (`@polkadot/api`, `@polkadot/keyring`,
`@polkadot/util-crypto`, `ecpair`/`tiny-secp256k1`) are opaque to the
script; they are modelled as environment records of abstract functions
(`CryptoEnv`, `KeyringEnv`, `ChainEnv`) so that every value the script
computes is a function of those environments, exactly following the
sequence of `const` bindings in the source.  The asynchronous control
flow (four `signAndSend` calls, each awaited via a promise resolved on
the `isInBlock` status) is embedded as a labelled transition system
(`PC`, `Ev`, `stepFn`) further below.
-/

namespace Tangle

/-- Byte strings are lists of naturals (each byte `< 256` where the
sources guarantee it). -/
abbrev Bytes := List Nat

/-- Value of a hexadecimal digit character, `none` on a non-hex
character (as in `Buffer.from(s, "hex")`, which stops at the first
invalid pair). -/
def hexDigitVal (c : Char) : Option Nat :=
  if '0' ≤ c ∧ c ≤ '9' then some (c.toNat - '0'.toNat)
  else if 'a' ≤ c ∧ c ≤ 'f' then some (c.toNat - 'a'.toNat + 10)
  else if 'A' ≤ c ∧ c ≤ 'F' then some (c.toNat - 'A'.toNat + 10)
  else none

/-- Decode a hex character list two digits at a time; an incomplete or
invalid pair ends the output, as `Buffer.from(_, "hex")` does. -/
def hexDecodeAux : List Char → Bytes
  | c1 :: c2 :: rest =>
    match hexDigitVal c1, hexDigitVal c2 with
    | some hi, some lo => (16 * hi + lo) :: hexDecodeAux rest
    | _, _ => []
  | _ => []

/-- `Buffer.from(s, "hex")` as used at lines 41, 43, 147 of the script. -/
def hexDecode (s : String) : Bytes := hexDecodeAux s.data

/-- Lowercase hex character of a nibble. -/
def hexNibbleChar (n : Nat) : Char :=
  if n < 10 then Char.ofNat ('0'.toNat + n) else Char.ofNat ('a'.toNat + (n - 10))

/-- Two lowercase hex characters of one byte. -/
def byteToHexChars (b : Nat) : List Char :=
  [hexNibbleChar (b / 16 % 16), hexNibbleChar (b % 16)]

/-- `u8aToHex` from `@polkadot/util`: `"0x"` followed by two lowercase
hex characters per byte. -/
def u8aToHex (bytes : Bytes) : String :=
  "0x" ++ String.mk (bytes.map byteToHexChars).flatten

/-- An `ECPair` key pair as produced by `ECPair.fromPrivateKey`:
the private key bytes, the SEC1-encoded public key bytes, and the
`compressed` option it was created with. -/
structure ECPairKey where
  privateKey : Bytes
  publicKey : Bytes
  compressed : Bool
deriving DecidableEq, Repr

/-- The external cryptographic libraries the script calls, as abstract
functions: `ECPair.fromPrivateKey` (second argument is the `compressed`
option, `true` being the library default), `keccak256AsU8a` from
`@polkadot/util-crypto`, and `ECPair.sign` (key pair, 32-byte hash,
`lowR` flag). -/
structure CryptoEnv where
  fromPrivateKey : Bytes → Bool → ECPairKey
  keccak256AsU8a : Bytes → Bytes
  sign : ECPairKey → Bytes → Bool → Bytes

/-- A chain identity as returned by `Keyring.addFromUri` (line 37-38);
only the address is observable in the submitted calls. -/
structure Identity where
  address : String
deriving DecidableEq, Repr

/-- The sr25519 `Keyring` of line 34, as its one used operation. -/
structure KeyringEnv where
  addFromUri : String → Identity

/-- The one chain query the script performs before submitting anything:
`api.query.jobs.nextJobId()` at line 56. -/
structure ChainEnv where
  nextJobId : Nat

/-- `const ALICE = sr25519Keyring.addFromUri('//Alice')` (line 37). -/
def ALICE (k : KeyringEnv) : Identity := k.addFromUri "//Alice"

/-- `const BOB = sr25519Keyring.addFromUri('//Bob')` (line 38). -/
def BOB (k : KeyringEnv) : Identity := k.addFromUri "//Bob"

/-- The fixed hex seed of Alice's role key (line 41). -/
def ALICE_ROLE_SEED : Bytes :=
  hexDecode "cb6df9de1efca7a3998a8ead4e02159d5fa99c3e0d4fd6432667390bb4726854"

/-- The fixed hex seed of Bob's role key (line 43). -/
def BOB_ROLE_SEED : Bytes :=
  hexDecode "79c3b7fc0b7697b9414cb87adcb37317d1cab32818ae18c0e97ad76395d1fdcf"

/-- `const ALICE_ROLE = ECPair.fromPrivateKey(Buffer.from(ALICE_ROLE_SEED))`
(line 50); no options object, so the library default `compressed: true`. -/
def ALICE_ROLE (env : CryptoEnv) : ECPairKey :=
  env.fromPrivateKey ALICE_ROLE_SEED true

/-- `const BOB_ROLE = ECPair.fromPrivateKey(Buffer.from(BOB_ROLE_SEED))`
(line 51); library default `compressed: true`. -/
def BOB_ROLE (env : CryptoEnv) : ECPairKey :=
  env.fromPrivateKey BOB_ROLE_SEED true

/-- `const jobId = nextJobId` where
`nextJobId = await api.query.jobs.nextJobId()` (lines 56-57). -/
def jobId (chain : ChainEnv) : Nat := chain.nextJobId

/-- The threshold-signature role tag `DfnsCGGMP21Secp256k1` appearing in
all three call payloads. -/
inductive ThresholdSignatureRole
  | DfnsCGGMP21Secp256k1
deriving DecidableEq, Repr

/-- The role type tag: the script only ever uses `Tss` roles. -/
inductive RoleType
  | Tss (r : ThresholdSignatureRole)
deriving DecidableEq, Repr

/-- One record of the shared restaking profile (lines 63-69). -/
structure ProfileRecord where
  role : RoleType
deriving DecidableEq, Repr

/-- The `Shared` profile argument of `createProfile` (lines 61-72). -/
structure SharedProfile where
  records : List ProfileRecord
  amount : String
deriving DecidableEq, Repr

/-- The full argument list of `api.tx.roles.createProfile` (lines 60-73):
the shared profile and the trailing literal `10` (max profiles). -/
structure CreateProfileCall where
  profile : SharedProfile
  maxProfiles : Nat
deriving DecidableEq, Repr

/-- The `DkgtssPhaseOne` job type payload (lines 116-124). -/
structure DkgtssPhaseOne where
  participants : List String
  threshold : Nat
  permittedCaller : Option String
  roleType : ThresholdSignatureRole
deriving DecidableEq, Repr

/-- The argument of `api.tx.jobs.submitJob` (lines 112-125). -/
structure SubmitJobCall where
  expiry : Nat
  ttl : Nat
  jobType : DkgtssPhaseOne
deriving DecidableEq, Repr

/-- The signature scheme tag of the job result (lines 177-179). -/
inductive SignatureScheme
  | Ecdsa
deriving DecidableEq, Repr

/-- The `DKGPhaseOne` result payload (lines 173-180): hex key, hex
signatures, threshold, scheme. -/
structure DKGPhaseOneResult where
  key : String
  signatures : List String
  threshold : Nat
  signatureScheme : SignatureScheme
deriving DecidableEq, Repr

/-- The full argument list of `api.tx.jobs.submitJobResult`
(lines 168-181): role type, job id, result payload. -/
structure SubmitJobResultCall where
  roleType : RoleType
  jobIdArg : Nat
  result : DKGPhaseOneResult
deriving DecidableEq, Repr

/-- `const creatingProfileTx = api.tx.roles.createProfile({...}, 10)`
(lines 60-73): a single call value, later signed and sent twice. -/
def creatingProfileTx : CreateProfileCall :=
  { profile :=
      { records := [{ role := RoleType.Tss ThresholdSignatureRole.DfnsCGGMP21Secp256k1 }]
        amount := "10000000000000000000" }
    maxProfiles := 10 }

/-- `const submittingJobTx = api.tx.jobs.submitJob({...})` (lines 112-125). -/
def submittingJobTx (k : KeyringEnv) : SubmitJobCall :=
  { expiry := 100
    ttl := 100
    jobType :=
      { participants := [(ALICE k).address, (BOB k).address]
        threshold := 1
        permittedCaller := none
        roleType := ThresholdSignatureRole.DfnsCGGMP21Secp256k1 } }

/-- `const dkgKeyPair = ECPair.fromPrivateKey(Buffer.from("eec7…", "hex"),
{ compressed: false })` (lines 146-149). -/
def dkgKeyPair (env : CryptoEnv) : ECPairKey :=
  env.fromPrivateKey
    (hexDecode "eec7245d6b7d2ccb30380bfbe2a3648cd7a942653f5aa340edcea1f283686619")
    false

/-- `const dkgPublicKey = dkgKeyPair.publicKey` (line 152). -/
def dkgPublicKey (env : CryptoEnv) : Bytes := (dkgKeyPair env).publicKey

/-- `const dkgPublicKeyHash = keccak256AsU8a(dkgPublicKey)` (line 153). -/
def dkgPublicKeyHash (env : CryptoEnv) : Bytes :=
  env.keccak256AsU8a (dkgPublicKey env)

/-- `const lowR = false` (line 154). -/
def lowR : Bool := false

/-- `const signature1 = ALICE_ROLE.sign(Buffer.from(dkgPublicKeyHash), lowR)`
(line 155). -/
def signature1 (env : CryptoEnv) : Bytes :=
  env.sign (ALICE_ROLE env) (dkgPublicKeyHash env) lowR

/-- `const signature2 = BOB_ROLE.sign(Buffer.from(dkgPublicKeyHash), lowR)`
(line 156). -/
def signature2 (env : CryptoEnv) : Bytes :=
  env.sign (BOB_ROLE env) (dkgPublicKeyHash env) lowR

/-- `const v = lowR ? 27 : 28` (line 157). -/
def v : Nat := if lowR then 27 else 28

/-- JavaScript array index assignment `a[i] = x` on a dense array of
length `a.length`: replaces in bounds, appends at `i = a.length`.
(At `i > a.length` JavaScript would create holes; the script only
performs the assignment at index 64 on the 64-byte `ECPair.sign`
output, i.e. exactly at the length, so holes never arise and are
modelled as zero padding.) -/
def jsArraySet (a : Bytes) (i : Nat) (x : Nat) : Bytes :=
  if i < a.length then a.set i x
  else a ++ List.replicate (i - a.length) 0 ++ [x]

/-- `signature1Array = Array.from(signature1); signature1Array[64] = v`
(lines 160, 162). -/
def signature1Array (env : CryptoEnv) : Bytes :=
  jsArraySet (signature1 env) 64 v

/-- `signature2Array = Array.from(signature2); signature2Array[64] = v`
(lines 161, 163). -/
def signature2Array (env : CryptoEnv) : Bytes :=
  jsArraySet (signature2 env) 64 v

/-- The condition of
`console.assert(signature1Array.length == 65, …)` (line 164). -/
def signature1LengthAssert (env : CryptoEnv) : Bool :=
  (signature1Array env).length == 65

/-- The condition of
`console.assert(signature2Array.length == 65, …)` (line 165). -/
def signature2LengthAssert (env : CryptoEnv) : Bool :=
  (signature2Array env).length == 65

/-- `const submittingJobResultTx = api.tx.jobs.submitJobResult({Tss: …},
jobId, {DKGPhaseOne: …})` (lines 168-181). -/
def submittingJobResultTx (env : CryptoEnv) (chain : ChainEnv) : SubmitJobResultCall :=
  { roleType := RoleType.Tss ThresholdSignatureRole.DfnsCGGMP21Secp256k1
    jobIdArg := jobId chain
    result :=
      { key := u8aToHex (dkgPublicKey env)
        signatures := [u8aToHex (signature1Array env), u8aToHex (signature2Array env)]
        threshold := 1
        signatureScheme := SignatureScheme.Ecdsa } }

/-- One signed-and-sent extrinsic: which call, signed by whom. -/
inductive TxCall
  | createProfile (c : CreateProfileCall)
  | submitJob (c : SubmitJobCall)
  | submitJobResult (c : SubmitJobResultCall)
deriving DecidableEq, Repr

/-- A transaction submission of the script: the signing identity and
the call payload. -/
structure TxSubmission where
  signer : Identity
  call : TxCall
deriving DecidableEq, Repr

/-- The observable outcome of one run of the script: the four
transactions it signs and sends, in submission order, and the process
exit code. -/
structure ScriptRun where
  txs : List TxSubmission
  exitCode : Nat
deriving DecidableEq

/-- The whole script (the async IIFE, lines 25-203) as a function of
its environments.  `argv` and `envVars` model the process command line
and environment variables; the source never reads `process.argv` or
`process.env`, so they are unused.  The transaction list reflects the
four `signAndSend` calls in source order (lines 77, 95, 129, 185), and
the exit code is the literal of `process.exit(0)` (line 202). -/
def scriptRun (env : CryptoEnv) (k : KeyringEnv) (chain : ChainEnv)
    (_argv : List String) (_envVars : String → Option String) : ScriptRun :=
  { txs :=
      [ { signer := ALICE k, call := TxCall.createProfile creatingProfileTx }
      , { signer := BOB k, call := TxCall.createProfile creatingProfileTx }
      , { signer := ALICE k, call := TxCall.submitJob (submittingJobTx k) }
      , { signer := ALICE k, call := TxCall.submitJobResult (submittingJobResultTx env chain) } ]
    exitCode := 0 }

/-- Modelled from the spec: the chain-side jobs pallet is not part of
this repository (only its client-side call construction is under
`src/`).  Per the spec, "The job-submission transaction yields a job
identifier equal to the chain's pre-submission next job id counter
value": the pallet keeps a `nextJobId` counter, assigns it to a newly
submitted job, and increments it. -/
structure JobsPalletState where
  nextJobId : Nat
  jobs : List (Nat × SubmitJobCall)
deriving DecidableEq, Repr

/-- Modelled from the spec: processing a `submitJob` extrinsic yields
the current `nextJobId` as the new job's identifier and increments the
counter. -/
def submitJobOnChain (s : JobsPalletState) (c : SubmitJobCall) :
    Nat × JobsPalletState :=
  (s.nextJobId,
   { nextJobId := s.nextJobId + 1, jobs := s.jobs ++ [(s.nextJobId, c)] })

/-! ### Control flow of the script as a labelled transition system

The script's only concurrency structure is: four `signAndSend` calls,
each wrapped in `await new Promise(…)` whose `resolve` fires inside the
status callback when `status.isInBlock` holds (lines 76-91, 94-109,
128-143, 184-199), followed by `process.exit(0)` (line 202).  The
states below are the suspension points of that single logical thread;
the events are the actions it performs (`submit`) or reacts to
(`inBlock`), plus the failure notifications and the process exit.
`stepFn p e = none` means the script has no handler for event `e` in
state `p` — it either ignores the event (a non-`isInBlock` status) or
crashes with an unhandled rejection; the source contains no `catch`,
retry or timeout, so no state has a transition on a failure event. -/

/-- Names of the four transactions the script signs and sends, in
source order. -/
inductive TxName
  | profileAlice
  | profileBob
  | job
  | jobResult
deriving DecidableEq, Repr

/-- Events of the script's run: its own submissions and process exit,
and the chain-side notifications (inclusion of a transaction in a
block, or a failure such as a network error or chain-side rejection). -/
inductive Ev
  | submit (t : TxName)
  | inBlock (t : TxName)
  | txFailure (t : TxName)
  | procExit (code : Nat)
deriving DecidableEq, Repr

/-- Program counter of the script's single logical thread: `idle i`
means `i` transactions have been submitted and included and nothing is
in flight; `awaiting t` means transaction `t` has been submitted and
the flow is suspended on its inclusion promise; `exited` is after
`process.exit`. -/
inductive PC
  | idle0
  | awaitProfileAlice
  | idle1
  | awaitProfileBob
  | idle2
  | awaitJob
  | idle3
  | awaitJobResult
  | idle4
  | exited
deriving DecidableEq, Repr

/-- The transactions in flight at each control state: at most one,
because each submission is immediately awaited. -/
def inFlight : PC → List TxName
  | PC.awaitProfileAlice => [TxName.profileAlice]
  | PC.awaitProfileBob => [TxName.profileBob]
  | PC.awaitJob => [TxName.job]
  | PC.awaitJobResult => [TxName.jobResult]
  | _ => []

/-- The script's transition function, following the source top to
bottom: each `signAndSend` submission (lines 77, 95, 129, 185) moves to
the corresponding awaiting state; only the matching `isInBlock`
callback (lines 78, 96, 130, 186) resumes the flow; after the fourth
inclusion the flow performs `process.exit(0)` (line 202).  Every other
state/event pair is unhandled (`none`). -/
def stepFn : PC → Ev → Option PC
  | PC.idle0, Ev.submit TxName.profileAlice => some PC.awaitProfileAlice
  | PC.awaitProfileAlice, Ev.inBlock TxName.profileAlice => some PC.idle1
  | PC.idle1, Ev.submit TxName.profileBob => some PC.awaitProfileBob
  | PC.awaitProfileBob, Ev.inBlock TxName.profileBob => some PC.idle2
  | PC.idle2, Ev.submit TxName.job => some PC.awaitJob
  | PC.awaitJob, Ev.inBlock TxName.job => some PC.idle3
  | PC.idle3, Ev.submit TxName.jobResult => some PC.awaitJobResult
  | PC.awaitJobResult, Ev.inBlock TxName.jobResult => some PC.idle4
  | PC.idle4, Ev.procExit c => if c = 0 then some PC.exited else none
  | _, _ => none

/-! ### Concrete test environments, used by the witness theorems -/

/-- A concrete crypto environment for evaluating the definitions on
closed inputs: uncompressed public keys are 65 bytes with leading byte
4, compressed ones 33 bytes with leading byte 2, signatures are 64
bytes, hashes 32 bytes. -/
def testCryptoEnv : CryptoEnv :=
  { fromPrivateKey := fun priv c =>
      { privateKey := priv
        publicKey := if c then 2 :: List.replicate 32 1 else 4 :: List.replicate 64 1
        compressed := c }
    keccak256AsU8a := fun _ => List.replicate 32 9
    sign := fun _ _ _ => List.replicate 64 5 }

/-- A concrete keyring environment whose addresses are the derivation
URIs themselves. -/
def testKeyringEnv : KeyringEnv :=
  { addFromUri := fun u => { address := u } }

/-- A concrete chain environment with `nextJobId = 7`. -/
def testChainEnv : ChainEnv := { nextJobId := 7 }

/-- A second concrete crypto environment sharing `testCryptoEnv`'s key
derivation but with a different signing function, to exercise the
determinism statement on two distinct environments. -/
def testCryptoEnv2 : CryptoEnv :=
  { testCryptoEnv with sign := fun _ _ _ => List.replicate 64 6 }

/-! ### Helper lemmas -/

/-- Writing at index 64 of a 64-byte array appends the byte. -/
theorem jsArraySet_at_length (a : Bytes) (x : Nat) (h : a.length = 64) :
    jsArraySet a 64 x = a ++ [x] := by
  simp [jsArraySet, h]

/-- Writing at index 64 of a 64-byte array yields 65 bytes. -/
theorem jsArraySet_at_length_len (a : Bytes) (x : Nat) (h : a.length = 64) :
    (jsArraySet a 64 x).length = 65 := by
  simp [jsArraySet_at_length a x h, h]

/-! ### The claims -/

/-- Claim C1: for each of the two role key pairs, the signature
submitted in the job result is built by hashing the generated DKG
public key with keccak-256, signing that hash with the role key pair
(producing a 64-byte signature, which the `ecpair` library guarantees
and is taken as hypothesis here), appending the fixed recovery byte 28
(not derived from any recovery computation) to form a 65-byte
signature, and hex-encoding the 65-byte result for transmission. -/
theorem c1_signature_construction (env : CryptoEnv) (chain : ChainEnv)
    (h1 : (signature1 env).length = 64) (h2 : (signature2 env).length = 64) :
    (submittingJobResultTx env chain).result.signatures =
      [ u8aToHex (env.sign (ALICE_ROLE env) (env.keccak256AsU8a (dkgPublicKey env)) false ++ [28])
      , u8aToHex (env.sign (BOB_ROLE env) (env.keccak256AsU8a (dkgPublicKey env)) false ++ [28]) ] ∧
    (signature1Array env).length = 65 ∧ (signature2Array env).length = 65 := by
  have e1 : signature1Array env = signature1 env ++ [28] :=
    jsArraySet_at_length _ _ h1
  have e2 : signature2Array env = signature2 env ++ [28] :=
    jsArraySet_at_length _ _ h2
  refine ⟨?_, ?_, ?_⟩
  · simp [submittingJobResultTx, e1, e2, signature1, signature2, dkgPublicKeyHash, lowR]
  · simp [e1, h1]
  · simp [e2, h2]

/-- Witness for C1 at the concrete test environments. -/
theorem c1_signature_construction_witness :
    (signature1 testCryptoEnv).length = 64 ∧
    (signature2 testCryptoEnv).length = 64 ∧
    (submittingJobResultTx testCryptoEnv testChainEnv).result.signatures =
      [ u8aToHex (testCryptoEnv.sign (ALICE_ROLE testCryptoEnv)
          (testCryptoEnv.keccak256AsU8a (dkgPublicKey testCryptoEnv)) false ++ [28])
      , u8aToHex (testCryptoEnv.sign (BOB_ROLE testCryptoEnv)
          (testCryptoEnv.keccak256AsU8a (dkgPublicKey testCryptoEnv)) false ++ [28]) ] :=
  ⟨rfl, rfl, (c1_signature_construction testCryptoEnv testChainEnv rfl rfl).1⟩

/-- Claim C2: the job identifier referenced by the job-result
transaction equals the chain's `nextJobId` counter value as read
(line 56) before any transaction of this run is submitted, and the
job-submission transaction yields exactly that identifier on the
(spec-modelled) jobs pallet.  Profile creation acts on the roles
pallet, not `JobsPalletState`, so the pallet state at the job
submission is the state `s` at the read. -/
theorem c2_job_id_matches (env : CryptoEnv) (k : KeyringEnv) (s : JobsPalletState) :
    (submitJobOnChain s (submittingJobTx k)).1 = s.nextJobId ∧
    (submittingJobResultTx env { nextJobId := s.nextJobId }).jobIdArg = s.nextJobId :=
  ⟨rfl, rfl⟩

/-- Claim C4: key derivation from the hard-coded hex seeds is
deterministic: two runs whose crypto library derives keys the same way
(the same `fromPrivateKey` function) produce identical role key pairs
for Alice and Bob and an identical DKG key pair, because the seeds are
fixed constants and derivation takes no other input. -/
theorem c4_deterministic_key_derivation (env1 env2 : CryptoEnv)
    (h : env1.fromPrivateKey = env2.fromPrivateKey) :
    ALICE_ROLE env1 = ALICE_ROLE env2 ∧
    BOB_ROLE env1 = BOB_ROLE env2 ∧
    dkgKeyPair env1 = dkgKeyPair env2 := by
  refine ⟨?_, ?_, ?_⟩ <;> simp [ALICE_ROLE, BOB_ROLE, dkgKeyPair, h]

/-- Witness for C4 on two concrete environments that share the key
derivation function but differ in their signing function. -/
theorem c4_deterministic_key_derivation_witness :
    testCryptoEnv.fromPrivateKey = testCryptoEnv2.fromPrivateKey ∧
    ALICE_ROLE testCryptoEnv = ALICE_ROLE testCryptoEnv2 ∧
    BOB_ROLE testCryptoEnv = BOB_ROLE testCryptoEnv2 ∧
    dkgKeyPair testCryptoEnv = dkgKeyPair testCryptoEnv2 :=
  ⟨rfl, c4_deterministic_key_derivation testCryptoEnv testCryptoEnv2 rfl⟩

/-- Claim C5: each of the two produced signatures is exactly 65 bytes:
given the 64-byte signing output (an `ecpair` guarantee, as
hypothesis), writing the recovery byte at index 64 yields arrays of
length 65, so both `console.assert` length checks (lines 164-165)
hold. -/
theorem c5_signature_lengths (env : CryptoEnv)
    (h1 : (signature1 env).length = 64) (h2 : (signature2 env).length = 64) :
    (signature1Array env).length = 65 ∧ (signature2Array env).length = 65 ∧
    signature1LengthAssert env = true ∧ signature2LengthAssert env = true := by
  have l1 : (signature1Array env).length = 65 := jsArraySet_at_length_len _ _ h1
  have l2 : (signature2Array env).length = 65 := jsArraySet_at_length_len _ _ h2
  refine ⟨l1, l2, ?_, ?_⟩ <;>
    simp [signature1LengthAssert, signature2LengthAssert, l1, l2]

/-- Witness for C5 at the concrete test environment. -/
theorem c5_signature_lengths_witness :
    (signature1 testCryptoEnv).length = 64 ∧
    (signature2 testCryptoEnv).length = 64 ∧
    (signature1Array testCryptoEnv).length = 65 ∧
    (signature2Array testCryptoEnv).length = 65 :=
  ⟨rfl, rfl, (c5_signature_lengths testCryptoEnv rfl rfl).1,
    (c5_signature_lengths testCryptoEnv rfl rfl).2.1⟩

/-- Claim C6: the submitted job describes a two-party threshold
key-generation task whose parameters are all hard-coded literals —
participants are exactly Alice's and Bob's addresses, threshold 1,
permitted caller null, expiry and ttl both 100 — and no command-line
argument or environment variable influences the run: two runs
differing only in `argv`/`envVars` are identical. -/
theorem c6_hardcoded_job_parameters (env : CryptoEnv) (k : KeyringEnv)
    (chain : ChainEnv) (argv1 argv2 : List String)
    (ev1 ev2 : String → Option String) :
    submittingJobTx k =
      { expiry := 100
        ttl := 100
        jobType :=
          { participants := [(ALICE k).address, (BOB k).address]
            threshold := 1
            permittedCaller := none
            roleType := ThresholdSignatureRole.DfnsCGGMP21Secp256k1 } } ∧
    scriptRun env k chain argv1 ev1 = scriptRun env k chain argv2 ev2 :=
  ⟨rfl, rfl⟩

/-- Claim C3: transaction submissions are strictly sequential.  A
submission event is only enabled in a state with nothing in flight
(the previous transaction's inclusion has already been observed), it
puts exactly that one transaction in flight, and every control state
carries at most one in-flight transaction, so no two transactions of
the script are ever in flight concurrently. -/
theorem c3_sequential_submissions (p q : PC) (t : TxName)
    (h : stepFn p (Ev.submit t) = some q) :
    inFlight p = [] ∧ inFlight q = [t] ∧
    ∀ r : PC, (inFlight r).length ≤ 1 := by
  refine ⟨?_, ?_, fun r => by cases r <;> simp [inFlight]⟩ <;>
    cases p <;> cases t <;> simp_all [stepFn, inFlight] <;>
      simp [← h, inFlight]

/-- Witness for C3 at the first submission step. -/
theorem c3_sequential_submissions_witness :
    stepFn PC.idle0 (Ev.submit TxName.profileAlice) = some PC.awaitProfileAlice ∧
    inFlight PC.idle0 = [] ∧
    inFlight PC.awaitProfileAlice = [TxName.profileAlice] :=
  ⟨rfl,
    (c3_sequential_submissions PC.idle0 PC.awaitProfileAlice TxName.profileAlice rfl).1,
    (c3_sequential_submissions PC.idle0 PC.awaitProfileAlice TxName.profileAlice rfl).2.1⟩

/-- Claim C7: the script terminates by an explicit `process.exit(0)`
after the final (job-result) transaction's inclusion: the only
transition into the terminal state is the exit event with status 0
from the state reached by the job-result inclusion, that state is
reached only by the job-result inclusion, and the terminal state has
no outgoing transitions. -/
theorem c7_exit_after_final_inclusion (p : PC) (e : Ev)
    (h : stepFn p e = some PC.exited) :
    p = PC.idle4 ∧ e = Ev.procExit 0 ∧
    stepFn PC.awaitJobResult (Ev.inBlock TxName.jobResult) = some PC.idle4 ∧
    (∀ e2 : Ev, stepFn PC.exited e2 = none) ∧
    (∀ (p2 : PC) (e2 : Ev), stepFn p2 e2 = some PC.idle4 →
      p2 = PC.awaitJobResult ∧ e2 = Ev.inBlock TxName.jobResult) := by
  have hinv : ∀ (p2 : PC) (e2 : Ev) (q2 : PC), stepFn p2 e2 = some q2 →
      (q2 = PC.exited → p2 = PC.idle4 ∧ e2 = Ev.procExit 0) ∧
      (q2 = PC.idle4 → p2 = PC.awaitJobResult ∧ e2 = Ev.inBlock TxName.jobResult) := by
    intro p2 e2 q2 h2
    cases e2 with
    | submit t => cases p2 <;> cases t <;> simp_all [stepFn] <;> simp [← h2]
    | inBlock t => cases p2 <;> cases t <;> simp_all [stepFn] <;> simp [← h2]
    | txFailure t => cases p2 <;> cases t <;> simp_all [stepFn]
    | procExit c =>
      cases p2 <;> simp_all [stepFn]
      rcases h2 with ⟨hc, hq⟩
      simp [hc, ← hq]
  obtain ⟨hp, he⟩ := (hinv p e PC.exited h).1 rfl
  exact ⟨hp, he, rfl, fun e2 => by cases e2 <;> rfl,
    fun p2 e2 h2 => (hinv p2 e2 PC.idle4 h2).2 rfl⟩

/-- Witness for C7 at the exit step. -/
theorem c7_exit_after_final_inclusion_witness :
    stepFn PC.idle4 (Ev.procExit 0) = some PC.exited ∧
    stepFn PC.awaitJobResult (Ev.inBlock TxName.jobResult) = some PC.idle4 :=
  ⟨rfl, (c7_exit_after_final_inclusion PC.idle4 (Ev.procExit 0) rfl).2.2.1⟩

/-- Claim C8: no failure is handled anywhere: the only event that
advances a state with a transaction in flight is that transaction's
inclusion notification (so if inclusion never fires the flow is
suspended forever), and no state has any transition on a failure
event — a failure is an unhandled rejection, not a handled step. -/
theorem c8_no_failure_handling (p q : PC) (e : Ev) (t : TxName)
    (h1 : stepFn p e = some q) (h2 : inFlight p = [t]) :
    e = Ev.inBlock t ∧
    ∀ (p2 : PC) (t2 : TxName), stepFn p2 (Ev.txFailure t2) = none := by
  refine ⟨?_, fun p2 t2 => by cases p2 <;> rfl⟩
  cases p <;> simp [inFlight] at h2 <;>
    (subst h2;
     cases e with
     | submit t2 => cases t2 <;> simp [stepFn] at h1
     | inBlock t2 => cases t2 <;> first | rfl | simp [stepFn] at h1
     | txFailure t2 => cases t2 <;> simp [stepFn] at h1
     | procExit c => simp [stepFn] at h1)

/-- Witness for C8 at the first awaiting state. -/
theorem c8_no_failure_handling_witness :
    stepFn PC.awaitProfileAlice (Ev.inBlock TxName.profileAlice) = some PC.idle1 ∧
    inFlight PC.awaitProfileAlice = [TxName.profileAlice] ∧
    stepFn PC.awaitProfileAlice (Ev.txFailure TxName.profileAlice) = none :=
  ⟨rfl, rfl,
    (c8_no_failure_handling PC.awaitProfileAlice PC.idle1
      (Ev.inBlock TxName.profileAlice) TxName.profileAlice rfl rfl).2
      PC.awaitProfileAlice TxName.profileAlice⟩

/-- Claim C9: both profile-creation submissions reuse the single same
call value `creatingProfileTx` — the shared record with role
`Tss.DfnsCGGMP21Secp256k1`, amount `"10000000000000000000"`, and
max-profiles argument `10` — so Alice's and Bob's profile transactions
carry identical call data and differ only in the signing identity
(given that the keyring derives distinct identities for the two
URIs). -/
theorem c9_profile_txs_share_call (env : CryptoEnv) (k : KeyringEnv)
    (chain : ChainEnv) (argv : List String) (ev : String → Option String)
    (h : ALICE k ≠ BOB k) :
    (scriptRun env k chain argv ev).txs[0]? =
      some { signer := ALICE k, call := TxCall.createProfile creatingProfileTx } ∧
    (scriptRun env k chain argv ev).txs[1]? =
      some { signer := BOB k, call := TxCall.createProfile creatingProfileTx } ∧
    creatingProfileTx =
      { profile :=
          { records := [{ role := RoleType.Tss ThresholdSignatureRole.DfnsCGGMP21Secp256k1 }]
            amount := "10000000000000000000" }
        maxProfiles := 10 } ∧
    ((scriptRun env k chain argv ev).txs[0]?).map TxSubmission.call =
      ((scriptRun env k chain argv ev).txs[1]?).map TxSubmission.call ∧
    ((scriptRun env k chain argv ev).txs[0]?).map TxSubmission.signer ≠
      ((scriptRun env k chain argv ev).txs[1]?).map TxSubmission.signer := by
  refine ⟨rfl, rfl, rfl, rfl, ?_⟩
  simp [scriptRun]
  exact h

/-- Witness for C9 at the concrete test environments. -/
theorem c9_profile_txs_share_call_witness :
    ALICE testKeyringEnv ≠ BOB testKeyringEnv ∧
    (scriptRun testCryptoEnv testKeyringEnv testChainEnv [] (fun _ => none)).txs[0]? =
      some { signer := ALICE testKeyringEnv, call := TxCall.createProfile creatingProfileTx } ∧
    ((scriptRun testCryptoEnv testKeyringEnv testChainEnv [] (fun _ => none)).txs[0]?).map
        TxSubmission.signer ≠
      ((scriptRun testCryptoEnv testKeyringEnv testChainEnv [] (fun _ => none)).txs[1]?).map
        TxSubmission.signer := by
  have h : ALICE testKeyringEnv ≠ BOB testKeyringEnv := by decide
  have r := c9_profile_txs_share_call testCryptoEnv testKeyringEnv testChainEnv []
    (fun _ => none) h
  exact ⟨h, r.1, r.2.2.2.2⟩

/-- Claim C10: the DKG key pair is created from the hard-coded private
key with `compressed: false`, so — under the SEC1 behaviour of the
`ecpair` library, taken as hypotheses: uncompressed public keys are 65
bytes with leading byte `0x04`, compressed ones lead with `0x02` or
`0x03` — the public key submitted in the job result is the 65-byte
uncompressed encoding with leading byte `0x04`, and the digest the
role keys sign is the keccak-256 hash of that uncompressed encoding,
which differs from the compressed form. -/
theorem c10_uncompressed_dkg_key (env : CryptoEnv) (chain : ChainEnv)
    (hU : ∀ priv : Bytes, ((env.fromPrivateKey priv false).publicKey).length = 65 ∧
      ((env.fromPrivateKey priv false).publicKey).head? = some 4)
    (hC : ∀ priv : Bytes, ((env.fromPrivateKey priv true).publicKey).head? = some 2 ∨
      ((env.fromPrivateKey priv true).publicKey).head? = some 3) :
    dkgKeyPair env = env.fromPrivateKey
      (hexDecode "eec7245d6b7d2ccb30380bfbe2a3648cd7a942653f5aa340edcea1f283686619")
      false ∧
    (dkgPublicKey env).length = 65 ∧
    (dkgPublicKey env).head? = some 4 ∧
    dkgPublicKeyHash env = env.keccak256AsU8a (dkgPublicKey env) ∧
    (submittingJobResultTx env chain).result.key = u8aToHex (dkgPublicKey env) ∧
    dkgPublicKey env ≠ (env.fromPrivateKey
      (hexDecode "eec7245d6b7d2ccb30380bfbe2a3648cd7a942653f5aa340edcea1f283686619")
      true).publicKey := by
  obtain ⟨hlen, hhead⟩ := hU
    (hexDecode "eec7245d6b7d2ccb30380bfbe2a3648cd7a942653f5aa340edcea1f283686619")
  refine ⟨rfl, hlen, hhead, rfl, rfl, fun hEq => ?_⟩
  have hhead2 : (dkgPublicKey env).head? = some 4 := hhead
  rw [hEq] at hhead2
  rcases hC
    (hexDecode "eec7245d6b7d2ccb30380bfbe2a3648cd7a942653f5aa340edcea1f283686619")
    with hc | hc <;> rw [hc] at hhead2 <;> simp at hhead2

/-- Witness for C10 at the concrete test environment. -/
theorem c10_uncompressed_dkg_key_witness :
    (dkgPublicKey testCryptoEnv).length = 65 ∧
    (dkgPublicKey testCryptoEnv).head? = some 4 ∧
    dkgPublicKeyHash testCryptoEnv =
      testCryptoEnv.keccak256AsU8a (dkgPublicKey testCryptoEnv) := by
  have r := c10_uncompressed_dkg_key testCryptoEnv testChainEnv
    (fun _ => ⟨rfl, rfl⟩) (fun _ => Or.inl rfl)
  exact ⟨r.2.1, r.2.2.1, r.2.2.2.1⟩

end Tangle
